import Mathlib

/-!
# Verification of the Spotify endpoint-adapter tool

A shallow embedding of `src/spotify_griptape_tool/tool.py`: the adapter class
`SpotifyClient` exposes one method per Spotify Web API endpoint.  Each method
extracts named parameters from a loosely-typed parameter mapping, performs one
or more calls against the underlying `spotipy` client, and wraps the outcome in
a `TextArtifact`, `ListArtifact` or `ErrorArtifact`.

The embedding models Python values (`PyVal`), Python exceptions (`PyExn`), the
remote client as an arbitrary behaviour function (`Client`), and each operation
as a computation in a monad `OpM` that both propagates exceptions and records
the list of outbound client calls, so that theorems can speak about the result
artifact, uncaught exceptions, and the number and order of remote calls.
-/

set_option maxHeartbeats 1000000

/-- Python values as they occur in this adapter: `None`, strings, integers,
booleans, lists and string-keyed dictionaries. -/
inductive PyVal where
  | none
  | str (s : String)
  | int (n : Int)
  | bool (b : Bool)
  | list (xs : List PyVal)
  | dict (entries : List (String × PyVal))

mutual
/-- Python `==` on the values above (structural equality). -/
def PyVal.beq : PyVal → PyVal → Bool
  | .none, .none => true
  | .str a, .str b => a == b
  | .int a, .int b => a == b
  | .bool a, .bool b => a == b
  | .list xs, .list ys => PyVal.beqList xs ys
  | .dict xs, .dict ys => PyVal.beqEntries xs ys
  | _, _ => false

def PyVal.beqList : List PyVal → List PyVal → Bool
  | [], [] => true
  | x :: xs, y :: ys => PyVal.beq x y && PyVal.beqList xs ys
  | _, _ => false

def PyVal.beqEntries : List (String × PyVal) → List (String × PyVal) → Bool
  | [], [] => true
  | (k, v) :: xs, (l, w) :: ys => k == l && PyVal.beq v w && PyVal.beqEntries xs ys
  | _, _ => false
end

mutual
theorem PyVal.beq_refl : ∀ v : PyVal, PyVal.beq v v = true
  | .none => rfl
  | .str s => by simp [PyVal.beq]
  | .int n => by simp [PyVal.beq]
  | .bool b => by simp [PyVal.beq]
  | .list xs => by simp [PyVal.beq, PyVal.beqList_refl xs]
  | .dict es => by simp [PyVal.beq, PyVal.beqEntries_refl es]

theorem PyVal.beqList_refl : ∀ xs : List PyVal, PyVal.beqList xs xs = true
  | [] => rfl
  | x :: xs => by simp [PyVal.beqList, PyVal.beq_refl x, PyVal.beqList_refl xs]

theorem PyVal.beqEntries_refl : ∀ es : List (String × PyVal), PyVal.beqEntries es es = true
  | [] => rfl
  | (k, v) :: es => by simp [PyVal.beqEntries, PyVal.beq_refl v, PyVal.beqEntries_refl es]
end

/-- The Python exceptions relevant to this adapter.  All of them derive from
Python `Exception`; `spotifyException` models `spotipy.SpotifyException`,
which carries an HTTP status. -/
inductive PyExn where
  | attributeError (msg : String)
  | typeError (msg : String)
  | keyError (key : String)
  | indexError (msg : String)
  | valueError (msg : String)
  | spotifyException (http_status : Int) (msg : String)
  | otherException (msg : String)
deriving DecidableEq

/-- A single-quote character, used by the Python `repr` of strings. -/
def singleQuote : String := String.singleton (Char.ofNat 39)

/-- Models Python `str(e)` on an exception: the textual message the adapter
puts into an `ErrorArtifact`. -/
def PyExn.message : PyExn → String
  | .attributeError m => m
  | .typeError m => m
  | .keyError k => singleQuote ++ k ++ singleQuote
  | .indexError m => m
  | .valueError m => m
  | .spotifyException _ m => m
  | .otherException m => m

/-- `isinstance(e, SpotifyException)`: which exceptions an
`except SpotifyException` clause catches. -/
def PyExn.isSpotify : PyExn → Bool
  | .spotifyException _ _ => true
  | _ => false

/-- `se.http_status` of a `SpotifyException`.  The adapter only reads this
field on values caught by an `except SpotifyException` clause, so the value on
the other constructors (chosen to match no HTTP status) is never reached. -/
def PyExn.http_status : PyExn → Int
  | .spotifyException status _ => status
  | _ => -1

/-- `except Exception`: every modelled exception derives from `Exception`. -/
def PyExn.isException : PyExn → Bool := fun _ => true

mutual
/-- Python `repr` of a value (used by `str` on the elements of containers). -/
def pyRepr : PyVal → String
  | .none => "None"
  | .str s => singleQuote ++ s ++ singleQuote
  | .int n => toString n
  | .bool b => if b then "True" else "False"
  | .list xs => "[" ++ pyReprList xs ++ "]"
  | .dict es => "\x7b" ++ pyReprEntries es ++ "\x7d"

def pyReprList : List PyVal → String
  | [] => ""
  | [x] => pyRepr x
  | x :: xs => pyRepr x ++ ", " ++ pyReprList xs

def pyReprEntries : List (String × PyVal) → String
  | [] => ""
  | [(k, v)] => singleQuote ++ k ++ singleQuote ++ ": " ++ pyRepr v
  | (k, v) :: es =>
      singleQuote ++ k ++ singleQuote ++ ": " ++ pyRepr v ++ ", " ++ pyReprEntries es
end

/-- Python `str()` of a value: strings render without quotes, containers via
`repr` of their elements. -/
def pyStr : PyVal → String
  | .str s => s
  | v => pyRepr v

/-- Python `d.get(key, default)` (and `d.get(key)` via `default = None`):
defined on dictionaries; on `None` or any non-dictionary it raises
`AttributeError`, exactly as `vals.get(...)` does in the source when
`params` has no `"values"` entry. -/
def PyVal.get : PyVal → String → PyVal → Except PyExn PyVal
  | .dict es, k, d =>
      .ok (match es.find? (fun e => e.1 == k) with
           | Option.some e => e.2
           | Option.none => d)
  | .none, _, _ => .error (.attributeError "NoneType object has no attribute get")
  | _, _, _ => .error (.attributeError "object has no attribute get")

/-- Python `d[key]` subscription with a string key: `KeyError` when the key is
absent, `TypeError` when the value is not a dictionary. -/
def PyVal.getItem : PyVal → String → Except PyExn PyVal
  | .dict es, k =>
      match es.find? (fun e => e.1 == k) with
      | Option.some e => .ok e.2
      | Option.none => .error (.keyError k)
  | _, _ => .error (.typeError "object is not subscriptable")

/-- Python `l[i]` subscription with a non-negative index: `IndexError` when out
of range, `TypeError` when the value is not a list. -/
def PyVal.getIdx : PyVal → Nat → Except PyExn PyVal
  | .list xs, i =>
      match xs.get? i with
      | Option.some x => .ok x
      | Option.none => .error (.indexError "list index out of range")
  | _, _ => .error (.typeError "object is not subscriptable")

/-- Python `for x in v` iteration: lists yield their elements, strings their
characters, dictionaries their keys; other values raise `TypeError`. -/
def PyVal.asList : PyVal → Except PyExn (List PyVal)
  | .list xs => .ok xs
  | .str s => .ok (s.toList.map (fun c => PyVal.str (String.singleton c)))
  | .dict es => .ok (es.map (fun e => PyVal.str e.1))
  | _ => .error (.typeError "object is not iterable")

/-- Python `d.keys()`: defined on dictionaries only. -/
def PyVal.keys : PyVal → Except PyExn (List String)
  | .dict es => .ok (es.map (fun e => e.1))
  | .none => .error (.attributeError "NoneType object has no attribute keys")
  | _ => .error (.attributeError "object has no attribute keys")

/-- Python `xs.index(v)` on a list: the index of the first element equal to
`v`, `ValueError` when no element matches. -/
def pyListIndex : List PyVal → PyVal → Except PyExn Nat
  | [], _ => .error (.valueError "x not in list")
  | x :: xs, v => if PyVal.beq x v then .ok 0 else (pyListIndex xs v).map (· + 1)

/-- One hexadecimal digit, upper case. -/
def hexChar (n : Nat) : Char :=
  if n < 10 then Char.ofNat (48 + n) else Char.ofNat (55 + n)

/-- Percent-encoding of one character as done by `urllib.parse.quote` with its
default safe set (alphanumerics, `_.-~` and `/` stay; everything else is
encoded byte-by-byte from UTF-8). -/
def percentEncodeChar (c : Char) : String :=
  if c.isAlphanum || c = '_' || c = '.' || c = '-' || c = '~' || c = '/' then
    String.singleton c
  else
    String.join (((String.singleton c).toUTF8.toList).map
      (fun b => "%" ++ String.singleton (hexChar (b.toNat / 16))
                    ++ String.singleton (hexChar (b.toNat % 16))))

/-- `urllib.parse.quote`, imported in the source as `url_encode`: defined on
strings; on any other value (in particular `None`) it raises `TypeError`. -/
def urlEncode : PyVal → Except PyExn String
  | .str s => .ok (String.join (s.toList.map percentEncodeChar))
  | _ => .error (.typeError "quote_from_bytes() expected bytes")

/-- Python `",".join(v)`: joins an iterable of strings; a string iterates its
characters, a dictionary its keys; `None` and other non-iterables raise
`TypeError`, as does a list containing a non-string. -/
def joinComma : PyVal → Except PyExn String
  | .list xs =>
      (xs.mapM (fun v => match v with
        | PyVal.str s => Except.ok s
        | _ => Except.error (PyExn.typeError "sequence item: expected str instance"))).map
        (String.intercalate ",")
  | .str s => .ok (String.intercalate "," (s.toList.map (fun c => String.singleton c)))
  | .dict es => .ok (String.intercalate "," (es.map (fun e => e.1)))
  | _ => .error (.typeError "can only join an iterable")

/-- The griptape artifacts the adapter returns: `TextArtifact` wraps one
textual value, `ListArtifact` wraps an ordered sequence of `TextArtifact`
values (modelled by their strings), `ErrorArtifact` wraps an error text. -/
inductive Artifact where
  | TextArtifact (value : String)
  | ListArtifact (values : List String)
  | ErrorArtifact (value : String)
deriving DecidableEq

/-- One outbound call to the remote service, tagged by the `spotipy` client
method invoked and the (Python-value) arguments the adapter passes to it. -/
inductive ClientCall where
  | album (id market : PyVal)
  | albums (ids market : PyVal)
  | album_tracks (id market : PyVal)
  | current_user_saved_albums_contains (ids : PyVal)
  | new_releases (country limit offset : PyVal)
  | playlist_add_items (playlist_id items position : PyVal)
  | me
  | user_playlist_create (user name public collaborative description : PyVal)
  | tracks (ids market : PyVal)
  | search (q type market : PyVal)
  | audio_features (tracks : PyVal)

/-- The behaviour of the shared `spotipy` client session: for each call it
either returns a JSON-like response value or raises an exception. -/
def Client : Type := ClientCall → Except PyExn PyVal

/-- The computation monad of one operation body: it threads the list of
outbound calls made so far and propagates uncaught Python exceptions.  The
call list survives an exception, since calls made before a raise did happen. -/
def OpM (α : Type) : Type := List ClientCall → Except PyExn α × List ClientCall

def OpM.pure {α : Type} (a : α) : OpM α := fun calls => (.ok a, calls)

def OpM.bind {α β : Type} (x : OpM α) (f : α → OpM β) : OpM β := fun calls =>
  match x calls with
  | (.ok a, calls2) => f a calls2
  | (.error e, calls2) => (.error e, calls2)

instance : Monad OpM where
  pure := OpM.pure
  bind := OpM.bind

/-- Evaluates a pure Python expression (which may raise) inside an operation
body. -/
def OpM.lift {α : Type} (x : Except PyExn α) : OpM α := fun calls => (x, calls)

/-- Performs one outbound call against the client session, recording it. -/
def callClient (client : Client) (c : ClientCall) : OpM PyVal :=
  fun calls => (client c, calls ++ [c])

/-- A Python `try:` block with one `except` clause: `catches` says which
exceptions the clause matches (`except Exception` or `except SpotifyException`
in this source); unmatched exceptions propagate. -/
def tryExcept {α : Type} (body : OpM α) (catches : PyExn → Bool)
    (handler : PyExn → OpM α) : OpM α :=
  fun calls =>
    match body calls with
    | (.ok a, calls2) => (.ok a, calls2)
    | (.error e, calls2) => if catches e then handler e calls2 else (.error e, calls2)

/-- The `artifacts = list(); for x in xs: artifacts.append(body(x))` pattern
for loop bodies that can raise: runs the body left to right, collecting the
appended values. -/
def forCollect {α β : Type} (f : α → OpM β) : List α → OpM (List β)
  | [] => OpM.pure []
  | a :: as =>
      OpM.bind (f a) (fun b =>
        OpM.bind (forCollect f as) (fun bs => OpM.pure (b :: bs)))

namespace SpotifyClient

/-- Embeds `SpotifyClient.__attrs_post_init__` (tool.py lines 39-42): raises
`ValueError` when `client_id` or `client_secret` is `None`. -/
def attrs_post_init (client_id client_secret : Option String) : Except PyExn Unit :=
  if client_id.isNone || client_secret.isNone then
    Except.error (.valueError "client_id and client_secret must be set")
  else
    Except.ok ()

/-- Modelled from the spec: `self.get_auth_response()` (called at tool.py
lines 750 and 885) is not defined anywhere under `src/`.  Per the spec, the
401/403 handler of a mutating operation must "trigger a re-authorization flow
and return its response as the Error Result payload"; the response produced by
that flow is modelled as an opaque string `auth_response` supplied to the
operations that use it. -/
def get_auth_response (auth_response : String) : String := auth_response

/-- Embeds `SpotifyClient.get_album` (tool.py lines 72-82). -/
def get_album (client : Client) (params : PyVal) : OpM (Option Artifact) := do
  let vals ← OpM.lift (params.get "values" PyVal.none)
  let id ← OpM.lift (vals.get "id" PyVal.none)
  let market ← OpM.lift (vals.get "market" (PyVal.str "US"))
  tryExcept (do
      let result ← callClient client (ClientCall.album id market)
      pure (some (Artifact.TextArtifact (pyStr result))))
    PyExn.isException
    (fun e => pure (some (Artifact.ErrorArtifact e.message)))

/-- Embeds `SpotifyClient.get_albums` (tool.py lines 99-112). -/
def get_albums (client : Client) (params : PyVal) : OpM (Option Artifact) := do
  let vals ← OpM.lift (params.get "values" PyVal.none)
  let ids ← OpM.lift (vals.get "ids" PyVal.none)
  let market ← OpM.lift (vals.get "market" (PyVal.str "US"))
  tryExcept (do
      let result ← callClient client (ClientCall.albums ids market)
      let albums ← OpM.lift (result.getItem "albums" >>= PyVal.asList)
      pure (some (Artifact.ListArtifact (albums.map pyStr))))
    PyExn.isException
    (fun e => pure (some (Artifact.ErrorArtifact e.message)))

/-- Embeds `SpotifyClient.get_album_tracks` (tool.py lines 129-142). -/
def get_album_tracks (client : Client) (params : PyVal) : OpM (Option Artifact) := do
  let vals ← OpM.lift (params.get "values" PyVal.none)
  let id ← OpM.lift (vals.get "id" PyVal.none)
  let market ← OpM.lift (vals.get "market" (PyVal.str "US"))
  tryExcept (do
      let result ← callClient client (ClientCall.album_tracks id market)
      let tracks ← OpM.lift (result.getItem "items" >>= PyVal.asList)
      pure (some (Artifact.ListArtifact (tracks.map pyStr))))
    PyExn.isException
    (fun e => pure (some (Artifact.ErrorArtifact e.message)))

/-- Embeds `SpotifyClient.check_current_user_saved_albums` (tool.py lines
239-251).  The loop builds, for each entry of `ids`, the text
`f"Album with id: (id) is saved: (result[ids.index(id)])"`: the boolean is
selected by `ids.index(id)`, the index of the FIRST occurrence of `id` in
`ids`, not by the position of the current iteration. -/
def check_current_user_saved_albums (client : Client) (params : PyVal) :
    OpM (Option Artifact) := do
  let vals ← OpM.lift (params.get "values" PyVal.none)
  let ids ← OpM.lift (vals.get "ids" PyVal.none)
  tryExcept (do
      let result ← callClient client (ClientCall.current_user_saved_albums_contains ids)
      let idList ← OpM.lift (PyVal.asList ids)
      let texts ← forCollect (fun id => do
          let i ← OpM.lift (pyListIndex idList id)
          let b ← OpM.lift (result.getIdx i)
          pure ("Album with id: " ++ pyStr id ++ " is saved: " ++ pyStr b)) idList
      pure (some (Artifact.ListArtifact texts)))
    PyExn.isException
    (fun e => pure (some (Artifact.ErrorArtifact e.message)))

/-- Embeds `SpotifyClient.get_new_releases` (tool.py lines 271-284).  The
`try` block builds the artifact list but contains no `return` statement, and
the function body ends right after the `except` clause: on the success path
the Python function falls through and returns `None`. -/
def get_new_releases (client : Client) (params : PyVal) : OpM (Option Artifact) := do
  let vals ← OpM.lift (params.get "values" PyVal.none)
  let country ← OpM.lift (vals.get "country" PyVal.none)
  let limit ← OpM.lift (vals.get "limit" (PyVal.int 20))
  let offset ← OpM.lift (vals.get "offset" (PyVal.int 0))
  tryExcept (do
      let result ← callClient client (ClientCall.new_releases country limit offset)
      let albums ← OpM.lift (result.getItem "albums" >>= (·.getItem "items") >>= PyVal.asList)
      let _artifacts := albums.map pyStr
      pure Option.none)
    PyExn.isException
    (fun e => pure (some (Artifact.ErrorArtifact e.message)))

/-- Embeds `SpotifyClient.add_items_to_playlist` (tool.py lines 738-752).
Unlike the other operations, the `try` block is guarded by
`except SpotifyException` only; a 401 or 403 status routes to the
re-authorization response, any other `SpotifyException` to the generic error
text, and any other exception propagates uncaught. -/
def add_items_to_playlist (auth_response : String) (client : Client) (params : PyVal) :
    OpM (Option Artifact) := do
  let vals ← OpM.lift (params.get "values" PyVal.none)
  let id ← OpM.lift (vals.get "id" PyVal.none)
  let tracks ← OpM.lift (vals.get "uris" PyVal.none)
  let position ← OpM.lift (vals.get "position" (PyVal.int 0))
  tryExcept (do
      let result ← callClient client (ClientCall.playlist_add_items id tracks position)
      pure (some (Artifact.TextArtifact (pyStr result))))
    PyExn.isSpotify
    (fun se =>
      if se.http_status == 403 || se.http_status == 401 then
        pure (some (Artifact.ErrorArtifact (get_auth_response auth_response)))
      else
        pure (some (Artifact.ErrorArtifact se.message)))

/-- Embeds `SpotifyClient.create_playlist` (tool.py lines 872-887).  The
`try` block makes TWO outbound calls: `self.client.me()` to obtain the current
user, then `self.client.user_playlist_create(...)`.  Like
`add_items_to_playlist` it catches `SpotifyException` only. -/
def create_playlist (auth_response : String) (client : Client) (params : PyVal) :
    OpM (Option Artifact) := do
  let vals ← OpM.lift (params.get "values" PyVal.none)
  let name ← OpM.lift (vals.get "name" PyVal.none)
  let public ← OpM.lift (vals.get "public" (PyVal.bool true))
  let collaborative ← OpM.lift (vals.get "collaborative" (PyVal.bool false))
  let description ← OpM.lift (vals.get "description" (PyVal.str ""))
  tryExcept (do
      let meResult ← callClient client ClientCall.me
      let userId ← OpM.lift (meResult.getItem "id")
      let result ← callClient client
        (ClientCall.user_playlist_create userId name public collaborative description)
      pure (some (Artifact.TextArtifact (pyStr result))))
    PyExn.isSpotify
    (fun se =>
      if se.http_status == 403 || se.http_status == 401 then
        pure (some (Artifact.ErrorArtifact (get_auth_response auth_response)))
      else
        pure (some (Artifact.ErrorArtifact se.message)))

/-- Embeds `SpotifyClient.search` (tool.py lines 1048-1063): encodes the
query with `url_encode`, joins the type list with `","`, performs one search
call, then flattens `res[key]["items"]` over `res.keys()`, each item rendered
as `f"(key): (item)"`. -/
def search (client : Client) (params : PyVal) : OpM (Option Artifact) := do
  let vals ← OpM.lift (params.get "values" PyVal.none)
  let q ← OpM.lift (vals.get "q" PyVal.none)
  let type ← OpM.lift (vals.get "type" PyVal.none)
  let market ← OpM.lift (vals.get "market" (PyVal.str "US"))
  tryExcept (do
      let qEnc ← OpM.lift (urlEncode q)
      let typeArg ← OpM.lift (joinComma type)
      let res ← callClient client
        (ClientCall.search (PyVal.str qEnc) (PyVal.str typeArg) market)
      let ks ← OpM.lift (PyVal.keys res)
      let groups ← forCollect (fun key => do
          let items ← OpM.lift (res.getItem key >>= (·.getItem "items") >>= PyVal.asList)
          pure (items.map (fun item => key ++ ": " ++ pyStr item))) ks
      pure (some (Artifact.ListArtifact groups.flatten)))
    PyExn.isException
    (fun e => pure (some (Artifact.ErrorArtifact e.message)))

/-- Embeds `SpotifyClient.get_tracks` (tool.py lines 1117-1130). -/
def get_tracks (client : Client) (params : PyVal) : OpM (Option Artifact) := do
  let vals ← OpM.lift (params.get "values" PyVal.none)
  let ids ← OpM.lift (vals.get "ids" PyVal.none)
  let market ← OpM.lift (vals.get "market" (PyVal.str "US"))
  tryExcept (do
      let result ← callClient client (ClientCall.tracks ids market)
      let tracks ← OpM.lift (result.getItem "tracks" >>= PyVal.asList)
      pure (some (Artifact.ListArtifact (tracks.map pyStr))))
    PyExn.isException
    (fun e => pure (some (Artifact.ErrorArtifact e.message)))

/-- Embeds `SpotifyClient.get_audio_features` (tool.py lines 1255-1267): the
body reads `vals.get("ids")` although the declared schema of this activity
accepts only the key `"id"`. -/
def get_audio_features (client : Client) (params : PyVal) : OpM (Option Artifact) := do
  let vals ← OpM.lift (params.get "values" PyVal.none)
  let ids ← OpM.lift (vals.get "ids" PyVal.none)
  tryExcept (do
      let result ← callClient client (ClientCall.audio_features ids)
      let tracks ← OpM.lift (result.getItem "audio_features" >>= PyVal.asList)
      pure (some (Artifact.ListArtifact (tracks.map pyStr))))
    PyExn.isException
    (fun e => pure (some (Artifact.ErrorArtifact e.message)))

/-- The parameter keys declared by the `@activity` schema of
`get_audio_features` (tool.py lines 1244-1253): a single `Literal("id")`. -/
def get_audio_features_schema_keys : List String := ["id"]

end SpotifyClient

/-- A parameter mapping as the framework passes it: a dictionary whose
`"values"` entry holds the named parameters. -/
def mkParams (vs : List (String × PyVal)) : PyVal :=
  PyVal.dict [("values", PyVal.dict vs)]

/-- A client session whose every call returns the same response. -/
def constClient (resp : PyVal) : Client := fun _ => Except.ok resp

/-- A client session whose every call raises the same exception. -/
def raiseClient (e : PyExn) : Client := fun _ => Except.error e

theorem OpM.bind_eq {α β : Type} (x : OpM α) (f : α → OpM β) :
    x >>= f = OpM.bind x f := rfl

theorem OpM.pure_eq {α : Type} (a : α) : (Pure.pure a : OpM α) = OpM.pure a := rfl

theorem OpM.bind_lift {α β : Type} (x : Except PyExn α) (f : α → OpM β)
    (calls : List ClientCall) :
    OpM.bind (OpM.lift x) f calls =
      match x with
      | .ok a => f a calls
      | .error e => (.error e, calls) := by
  cases x <;> rfl

theorem OpM.bind_callClient {β : Type} (client : Client) (c : ClientCall)
    (f : PyVal → OpM β) (calls : List ClientCall) :
    OpM.bind (callClient client c) f calls =
      match client c with
      | .ok v => f v (calls ++ [c])
      | .error e => (.error e, calls ++ [c]) := by
  cases h : client c <;> simp [OpM.bind, callClient, h]

theorem tryExcept_callClient {β : Type} (client : Client) (c : ClientCall)
    (post : PyVal → OpM β) (catches : PyExn → Bool) (handler : PyExn → OpM β)
    (calls : List ClientCall) :
    tryExcept (OpM.bind (callClient client c) post) catches handler calls =
      match client c with
      | .ok v => tryExcept (post v) catches handler (calls ++ [c])
      | .error e =>
          if catches e then handler e (calls ++ [c]) else (.error e, calls ++ [c]) := by
  cases hc : client c <;> simp [tryExcept, OpM.bind, callClient, hc]

theorem tryExcept_lift {α β : Type} (x : Except PyExn α) (f : α → OpM β)
    (catches : PyExn → Bool) (handler : PyExn → OpM β) (calls : List ClientCall) :
    tryExcept (OpM.bind (OpM.lift x) f) catches handler calls =
      match x with
      | .ok a => tryExcept (f a) catches handler calls
      | .error e => if catches e then handler e calls else (.error e, calls) := by
  cases x <;> simp [tryExcept, OpM.bind, OpM.lift]

theorem tryExcept_pure {β : Type} (a : β) (catches : PyExn → Bool)
    (handler : PyExn → OpM β) (calls : List ClientCall) :
    tryExcept (OpM.pure a) catches handler calls = (.ok a, calls) := rfl

/-- A client behaviour that raises only `SpotifyException` (the usual shape of
failures surfaced by `spotipy`, which the elevated-permission operations rely
on). -/
def SpotifyOnlyClient (client : Client) : Prop :=
  ∀ c : ClientCall, (∃ v, client c = .ok v) ∨
    ∃ status msg, client c = .error (.spotifyException status msg)

/-- A client behaviour whose `me()` response carries an `"id"` entry, as the
Spotify `/me` endpoint guarantees; `create_playlist` subscripts the response
with `["id"]` outside any matching handler. -/
def MeHasId (client : Client) : Prop :=
  ∀ v, client ClientCall.me = .ok v → ∃ w, v.getItem "id" = .ok w

/-- A computation that performs no outbound client calls: it leaves the call
trace unchanged. -/
def NoCalls {α : Type} (x : OpM α) : Prop := ∀ calls, (x calls).2 = calls

theorem noCalls_pure {α : Type} (a : α) : NoCalls (OpM.pure a) := fun _ => rfl

theorem noCalls_lift {α : Type} (x : Except PyExn α) : NoCalls (OpM.lift x) := fun _ => rfl

theorem noCalls_bind {α β : Type} {x : OpM α} {f : α → OpM β}
    (hx : NoCalls x) (hf : ∀ a, NoCalls (f a)) : NoCalls (OpM.bind x f) := by
  intro calls
  unfold OpM.bind
  rcases h : x calls with ⟨r, calls2⟩
  have h2 : calls2 = calls := by simpa [h] using hx calls
  cases r with
  | error e => simpa using h2
  | ok a => rw [h2]; exact hf a calls

theorem noCalls_forCollect {α β : Type} {f : α → OpM β}
    (hf : ∀ a, NoCalls (f a)) : ∀ l : List α, NoCalls (forCollect f l)
  | [] => noCalls_pure []
  | a :: as =>
      noCalls_bind (hf a) (fun _ =>
        noCalls_bind (noCalls_forCollect hf as) (fun _ => noCalls_pure _))

theorem noCalls_tryExcept {α : Type} {body : OpM α} {catches : PyExn → Bool}
    {handler : PyExn → OpM α} (hb : NoCalls body) (hh : ∀ e, NoCalls (handler e)) :
    NoCalls (tryExcept body catches handler) := by
  intro calls
  unfold tryExcept
  rcases h : body calls with ⟨r, calls2⟩
  have h2 : calls2 = calls := by simpa [h] using hb calls
  cases r with
  | ok a => simpa using h2
  | error e =>
      show (if catches e = true then handler e calls2 else (Except.error e, calls2)).2 = calls
      split
      · rw [hh e calls2]; exact h2
      · exact h2

/-- The index Python `ids.index(id)` yields when `id` occurs in `ids`: the
position of the first element equal to `id`. -/
def firstIdx (ids : List PyVal) (id : PyVal) : Nat :=
  ids.findIdx (fun x => PyVal.beq x id)

theorem pyListIndex_eq_firstIdx {id : PyVal} :
    ∀ {ids : List PyVal}, id ∈ ids → pyListIndex ids id = .ok (firstIdx ids id) := by
  intro ids hmem
  induction ids with
  | nil => cases hmem
  | cons x xs ih =>
      unfold pyListIndex firstIdx
      rw [List.findIdx_cons]
      cases hx : PyVal.beq x id with
      | true => simp
      | false =>
          have hmem2 : id ∈ xs := by
            rcases List.mem_cons.mp hmem with h | h
            · rw [h, PyVal.beq_refl] at hx; cases hx
            · exact h
          have := ih hmem2
          unfold firstIdx at this
          simp [this, Except.map]

theorem firstIdx_lt_of_mem {id : PyVal} {ids : List PyVal} (hmem : id ∈ ids) :
    firstIdx ids id < ids.length :=
  List.findIdx_lt_length_of_exists ⟨id, hmem, PyVal.beq_refl id⟩

theorem getIdx_list_lt {bs : List PyVal} {i : Nat} (h : i < bs.length) :
    PyVal.getIdx (PyVal.list bs) i = .ok (bs.getD i PyVal.none) := by
  have hdef : PyVal.getIdx (PyVal.list bs) i =
      match bs.get? i with
      | Option.some x => .ok x
      | Option.none => .error (.indexError "list index out of range") := rfl
  rw [hdef, List.get?_eq_get h]
  simp [List.getD, List.getElem?_eq_getElem h]

theorem findIdx_le_of_pred (p : PyVal → Bool) :
    ∀ (l : List PyVal) (j : Nat) (hj : j < l.length), p (l.get ⟨j, hj⟩) = true →
      l.findIdx p ≤ j
  | x :: xs, 0, _, hp => by
      simp only [List.get] at hp
      rw [List.findIdx_cons, hp]
      simp
  | x :: xs, j + 1, hj, hp => by
      rw [List.findIdx_cons]
      cases hx : p x
      · simp only [cond_false]
        have := findIdx_le_of_pred p xs j (by simpa using Nat.lt_of_succ_lt_succ hj)
          (by simpa using hp)
        omega
      · simp

theorem firstIdx_positional {ids : List PyVal}
    (hdist : List.Pairwise (fun a b => PyVal.beq a b = false) ids) :
    ∀ (j : Nat) (hj : j < ids.length), firstIdx ids (ids.get ⟨j, hj⟩) = j := by
  induction ids with
  | nil => intro j hj; cases hj
  | cons x xs ih =>
      intro j hj
      unfold firstIdx
      rw [List.findIdx_cons]
      cases j with
      | zero => simp [PyVal.beq_refl]
      | succ j =>
          have hlt : j < xs.length := by simp at hj; omega
          simp only [List.get_cons_succ]
          have hx : PyVal.beq x (xs.get ⟨j, hlt⟩) = false :=
            (List.pairwise_cons.mp hdist).1 _ (xs.get_mem _ _)
          have hrec := ih (List.pairwise_cons.mp hdist).2 j hlt
          unfold firstIdx at hrec
          simp only [List.get_eq_getElem] at hx hrec ⊢
          rw [hx]
          simp [hrec]

/-- C6: for every collection-returning operation and every underlying response
collection, the Success Result is a ListArtifact whose wrapped elements are
equal in number to the items of the response collection and appear in the same
order, one wrapped element per item.  Stated for the collection operations
embedded here (`get_albums` over `result["albums"]`, `get_tracks` over
`result["tracks"]`, `get_album_tracks` over `result["items"]`): the wrapped
elements are exactly the item-wise `str(...)` images of the response
collection, in order, hence of equal count. -/
theorem collection_results_preserve_count_and_order :
    ∀ (vs : List (String × PyVal)) (xs : List PyVal),
      ((SpotifyClient.get_albums (constClient (PyVal.dict [("albums", PyVal.list xs)]))
          (mkParams vs) []).1
        = .ok (some (Artifact.ListArtifact (xs.map pyStr))))
      ∧ ((SpotifyClient.get_tracks (constClient (PyVal.dict [("tracks", PyVal.list xs)]))
          (mkParams vs) []).1
        = .ok (some (Artifact.ListArtifact (xs.map pyStr))))
      ∧ ((SpotifyClient.get_album_tracks (constClient (PyVal.dict [("items", PyVal.list xs)]))
          (mkParams vs) []).1
        = .ok (some (Artifact.ListArtifact (xs.map pyStr))))
      ∧ (xs.map pyStr).length = xs.length := by
  intro vs xs
  exact ⟨rfl, rfl, rfl, by simp⟩

/-- C7: constructing the adapter without a client identifier or without a
client secret raises `ValueError` in `__attrs_post_init__`, before any
operation can be invoked; with both present the check passes. -/
theorem construction_requires_credentials :
    (∀ cs, SpotifyClient.attrs_post_init Option.none cs
        = .error (.valueError "client_id and client_secret must be set"))
    ∧ (∀ cid, SpotifyClient.attrs_post_init cid Option.none
        = .error (.valueError "client_id and client_secret must be set"))
    ∧ (∀ i s, SpotifyClient.attrs_post_init (some i) (some s) = .ok ()) := by
  refine ⟨fun cs => rfl, fun cid => ?_, fun i s => rfl⟩
  cases cid <;> rfl

/-- C10: `get_audio_features` reads the key `"ids"` from the values mapping
while its declared schema accepts only the key `"id"`: for every parameter
mapping containing exactly the declared `"id"` key (with any value `v`), the
operation passes Python `None` to the underlying `audio_features` call,
ignoring the supplied track list. -/
theorem getAudioFeatures_ignores_declared_id_key :
    SpotifyClient.get_audio_features_schema_keys = ["id"]
    ∧ ∀ (v : PyVal) (client : Client),
        (SpotifyClient.get_audio_features client (mkParams [("id", v)]) []).2
          = [ClientCall.audio_features PyVal.none] := by
  refine ⟨rfl, fun v client => ?_⟩
  simp only [SpotifyClient.get_audio_features, OpM.bind_eq, OpM.pure_eq, OpM.bind_lift,
    tryExcept_callClient, tryExcept_lift, tryExcept_pure, mkParams, PyVal.get,
    PyExn.isException, if_true, OpM.pure]
  simp
  repeat' split
  all_goals rfl

/-- C1 (code bug): the invariant "every operation produces exactly one of
Success Result or Error Result, never None" is violated by
`get_new_releases`: on a successful remote call with a well-formed response it
returns Python `None` (its `try` block has no `return`), while on a failing
call it does return an `ErrorArtifact`. -/
theorem getNewReleases_returns_none_on_success_eval :
    ((SpotifyClient.get_new_releases
        (constClient (PyVal.dict
          [("albums", PyVal.dict [("items", PyVal.list [PyVal.str "album1"])])]))
        (mkParams [("country", PyVal.str "US")]) []).1
      = Except.ok Option.none)
    ∧ ((SpotifyClient.get_new_releases (raiseClient (PyExn.otherException "boom"))
        (mkParams [("country", PyVal.str "US")]) []).1
      = Except.ok (some (Artifact.ErrorArtifact "boom"))) :=
  ⟨rfl, rfl⟩

/-- C8: `get_new_releases` never returns a value on its success path: for
every client behaviour, parameter mapping and prior trace, whenever the
operation returns an artifact at all, that artifact is an `ErrorArtifact`
produced by the error path; the success path returns Python `None`. -/
theorem getNewReleases_success_path_returns_no_artifact :
    ∀ (client : Client) (params : PyVal) (calls : List ClientCall)
      (r : Artifact),
      (SpotifyClient.get_new_releases client params calls).1 = .ok (some r) →
      ∃ m, r = Artifact.ErrorArtifact m := by
  intro client params calls r h
  simp only [SpotifyClient.get_new_releases, OpM.bind_eq, OpM.pure_eq, OpM.bind_lift,
    tryExcept_callClient, tryExcept_lift, tryExcept_pure, PyExn.isException,
    if_true, OpM.pure] at h
  repeat' split at h
  all_goals simp_all
  all_goals exact ⟨_, h.symm⟩

/-- Witness for C8 at a concrete input: a failing remote call makes the
hypothesis hold with `r` the error artifact. -/
theorem getNewReleases_success_path_returns_no_artifact_witness :
    ∃ m, Artifact.ErrorArtifact "boom" = Artifact.ErrorArtifact m :=
  getNewReleases_success_path_returns_no_artifact
    (raiseClient (PyExn.otherException "boom")) (mkParams []) []
    (Artifact.ErrorArtifact "boom") rfl

/-- C2 counterexample: an exception that is not a `SpotifyException`, raised
during the remote call of `create_playlist`, propagates past the operation
boundary instead of being converted into an `ErrorArtifact`, refuting the
claim that no exception of any type escapes any operation. -/
theorem createPlaylist_uncaught_exception_eval :
    SpotifyClient.create_playlist "AUTH" (raiseClient (PyExn.otherException "socket error"))
      (mkParams [("name", PyVal.str "p")]) []
    = (Except.error (PyExn.otherException "socket error"), [ClientCall.me]) := rfl

/-- C2 (amended): for every embedded operation except `add_items_to_playlist`
and `create_playlist`, every exception the remote call raises is caught and
converted into an `ErrorArtifact` carrying `str(e)`; for those two operations
this holds only for `SpotifyException` failures whose status is not 401/403
(those two statuses produce the re-authorization `ErrorArtifact` instead, cf.
C3), and failures that are not `SpotifyException` propagate uncaught. -/
theorem exception_conversion_policy :
    (∀ (e : PyExn) (vs : List (String × PyVal)),
      ((SpotifyClient.get_album (raiseClient e) (mkParams vs) []).1
          = .ok (some (Artifact.ErrorArtifact e.message)))
      ∧ ((SpotifyClient.get_albums (raiseClient e) (mkParams vs) []).1
          = .ok (some (Artifact.ErrorArtifact e.message)))
      ∧ ((SpotifyClient.get_album_tracks (raiseClient e) (mkParams vs) []).1
          = .ok (some (Artifact.ErrorArtifact e.message)))
      ∧ ((SpotifyClient.get_tracks (raiseClient e) (mkParams vs) []).1
          = .ok (some (Artifact.ErrorArtifact e.message)))
      ∧ ((SpotifyClient.get_new_releases (raiseClient e) (mkParams vs) []).1
          = .ok (some (Artifact.ErrorArtifact e.message)))
      ∧ ((SpotifyClient.check_current_user_saved_albums (raiseClient e) (mkParams vs) []).1
          = .ok (some (Artifact.ErrorArtifact e.message)))
      ∧ ((SpotifyClient.get_audio_features (raiseClient e) (mkParams vs) []).1
          = .ok (some (Artifact.ErrorArtifact e.message))))
    ∧ (∀ (e : PyExn) (q t : String),
        (SpotifyClient.search (raiseClient e)
          (mkParams [("q", PyVal.str q), ("type", PyVal.list [PyVal.str t])]) []).1
        = .ok (some (Artifact.ErrorArtifact e.message)))
    ∧ (∀ (status : Int) (msg ar : String) (vs : List (String × PyVal)),
        status ≠ 403 → status ≠ 401 →
        ((SpotifyClient.add_items_to_playlist ar
            (raiseClient (PyExn.spotifyException status msg)) (mkParams vs) []).1
          = .ok (some (Artifact.ErrorArtifact msg)))
        ∧ ((SpotifyClient.create_playlist ar
            (raiseClient (PyExn.spotifyException status msg)) (mkParams vs) []).1
          = .ok (some (Artifact.ErrorArtifact msg))))
    ∧ (∀ (e : PyExn) (ar : String) (vs : List (String × PyVal)),
        PyExn.isSpotify e = false →
        ((SpotifyClient.add_items_to_playlist ar (raiseClient e) (mkParams vs) []).1
          = .error e)
        ∧ ((SpotifyClient.create_playlist ar (raiseClient e) (mkParams vs) []).1
          = .error e)) := by
  refine ⟨fun e vs => ⟨rfl, rfl, rfl, rfl, rfl, rfl, rfl⟩, fun e q t => rfl,
    fun status msg ar vs h403 h401 => ?_, fun e ar vs hns => ?_⟩
  · have hcond : (status == (403 : Int) || status == (401 : Int)) = false := by
      simp [beq_iff_eq, h403, h401]
    constructor
    · simp only [SpotifyClient.add_items_to_playlist, OpM.bind_eq, OpM.pure_eq,
        OpM.bind_lift, tryExcept_callClient, tryExcept_lift, tryExcept_pure, raiseClient,
        PyExn.isSpotify, PyExn.http_status, OpM.pure, mkParams, PyVal.get]
      simp [hcond, PyExn.message, OpM.pure]
    · simp only [SpotifyClient.create_playlist, OpM.bind_eq, OpM.pure_eq,
        OpM.bind_lift, tryExcept_callClient, tryExcept_lift, tryExcept_pure, raiseClient,
        PyExn.isSpotify, PyExn.http_status, OpM.pure, mkParams, PyVal.get]
      simp [hcond, PyExn.message, OpM.pure]
  · cases e <;> simp only [PyExn.isSpotify] at hns <;> first
      | exact ⟨rfl, rfl⟩
      | cases hns

/-- Witness for C2 (amended) at a concrete input: a 500 `SpotifyException` on
`add_items_to_playlist` yields the generic error artifact, and a `TypeError`
propagates. -/
theorem exception_conversion_policy_witness :
    ((SpotifyClient.add_items_to_playlist "AUTH"
        (raiseClient (PyExn.spotifyException 500 "server error")) (mkParams []) []).1
      = .ok (some (Artifact.ErrorArtifact "server error")))
    ∧ ((SpotifyClient.add_items_to_playlist "AUTH"
        (raiseClient (PyExn.typeError "bad arg")) (mkParams []) []).1
      = .error (PyExn.typeError "bad arg")) :=
  ⟨(exception_conversion_policy.2.2.1 500 "server error" "AUTH" []
      (by decide) (by decide)).1,
   (exception_conversion_policy.2.2.2 (PyExn.typeError "bad arg") "AUTH" [] rfl).1⟩

/-- C3 counterexample: a failure that is not a `SpotifyException` on
`add_items_to_playlist` does not take the generic error path as claimed: it
propagates out of the operation uncaught. -/
theorem addItems_uncaught_exception_eval :
    SpotifyClient.add_items_to_playlist "AUTH"
      (raiseClient (PyExn.typeError "argument of type NoneType is not iterable"))
      (mkParams [("id", PyVal.str "pl1")]) []
    = (Except.error (PyExn.typeError "argument of type NoneType is not iterable"),
       [ClientCall.playlist_add_items (PyVal.str "pl1") PyVal.none (PyVal.int 0)]) := rfl

/-- C3 (amended): on the elevated-permission mutating operations
(`create_playlist`, `add_items_to_playlist`), a `SpotifyException` with HTTP
status 401 or 403 produces an `ErrorArtifact` carrying the re-authorization
response (not the exception message); every other `SpotifyException` takes the
generic exception-message path; failures that are not a `SpotifyException`
propagate uncaught rather than taking the generic path. -/
theorem auth_failure_reauthorization_policy :
    (∀ (msg ar : String) (vs : List (String × PyVal)),
      ((SpotifyClient.add_items_to_playlist ar
          (raiseClient (PyExn.spotifyException 401 msg)) (mkParams vs) []).1
        = .ok (some (Artifact.ErrorArtifact (SpotifyClient.get_auth_response ar))))
      ∧ ((SpotifyClient.add_items_to_playlist ar
          (raiseClient (PyExn.spotifyException 403 msg)) (mkParams vs) []).1
        = .ok (some (Artifact.ErrorArtifact (SpotifyClient.get_auth_response ar))))
      ∧ ((SpotifyClient.create_playlist ar
          (raiseClient (PyExn.spotifyException 401 msg)) (mkParams vs) []).1
        = .ok (some (Artifact.ErrorArtifact (SpotifyClient.get_auth_response ar))))
      ∧ ((SpotifyClient.create_playlist ar
          (raiseClient (PyExn.spotifyException 403 msg)) (mkParams vs) []).1
        = .ok (some (Artifact.ErrorArtifact (SpotifyClient.get_auth_response ar)))))
    ∧ (∀ (status : Int) (msg ar : String) (vs : List (String × PyVal)),
        status ≠ 403 → status ≠ 401 →
        (SpotifyClient.add_items_to_playlist ar
            (raiseClient (PyExn.spotifyException status msg)) (mkParams vs) []).1
          = .ok (some (Artifact.ErrorArtifact msg)))
    ∧ (∀ (e : PyExn) (ar : String) (vs : List (String × PyVal)),
        PyExn.isSpotify e = false →
        (SpotifyClient.create_playlist ar (raiseClient e) (mkParams vs) []).1
          = .error e) := by
  refine ⟨fun msg ar vs => ⟨rfl, rfl, rfl, rfl⟩,
    fun status msg ar vs h403 h401 => ?_, fun e ar vs hns => ?_⟩
  · have hcond : (status == (403 : Int) || status == (401 : Int)) = false := by
      simp [beq_iff_eq, h403, h401]
    simp only [SpotifyClient.add_items_to_playlist, OpM.bind_eq, OpM.pure_eq,
      OpM.bind_lift, tryExcept_callClient, tryExcept_lift, tryExcept_pure, raiseClient,
      PyExn.isSpotify, PyExn.http_status, OpM.pure, mkParams, PyVal.get]
    simp [hcond, PyExn.message, OpM.pure]
  · cases e <;> simp only [PyExn.isSpotify] at hns <;> first
      | rfl
      | cases hns

/-- Witness for C3 (amended) at concrete inputs: a 404 on
`add_items_to_playlist` takes the generic path and a `KeyError` on
`create_playlist` propagates. -/
theorem auth_failure_reauthorization_policy_witness :
    ((SpotifyClient.add_items_to_playlist "REAUTH"
        (raiseClient (PyExn.spotifyException 404 "not found")) (mkParams []) []).1
      = .ok (some (Artifact.ErrorArtifact "not found")))
    ∧ ((SpotifyClient.create_playlist "REAUTH"
        (raiseClient (PyExn.keyError "id")) (mkParams []) []).1
      = .error (PyExn.keyError "id")) :=
  ⟨auth_failure_reauthorization_policy.2.1 404 "not found" "REAUTH" []
      (by decide) (by decide),
   auth_failure_reauthorization_policy.2.2 (PyExn.keyError "id") "REAUTH" [] rfl⟩

/-- A computation whose normal return value is always an artifact (`some`),
never Python `None`: the shape of every `try` body in this adapter except the
one in `get_new_releases`. -/
def AlwaysSome (x : OpM (Option Artifact)) : Prop :=
  ∀ calls a, (x calls).1 = .ok a → ∃ b, a = some b

theorem alwaysSome_bind {α : Type} {x : OpM α} {f : α → OpM (Option Artifact)}
    (hf : ∀ a, AlwaysSome (f a)) : AlwaysSome (OpM.bind x f) := by
  intro calls a h
  unfold OpM.bind at h
  rcases hx : x calls with ⟨r, calls2⟩
  rw [hx] at h
  cases r with
  | ok b => exact hf b calls2 a h
  | error e => simp at h

theorem alwaysSome_pure_some (b : Artifact) : AlwaysSome (OpM.pure (some b)) := by
  intro calls a h
  injection h with h
  exact ⟨b, h.symm⟩

/-- A `try` block whose body always produces an artifact and whose
`except Exception` handler wraps the message: the outcome is always an
artifact, whatever the body does. -/
theorem tryExcept_catchAll_total {body : OpM (Option Artifact)}
    (hb : AlwaysSome body) (calls : List ClientCall) :
    ∃ a, (tryExcept body PyExn.isException
      (fun e => OpM.pure (some (Artifact.ErrorArtifact e.message))) calls).1
      = .ok (some a) := by
  unfold tryExcept
  rcases h : body calls with ⟨r, calls2⟩
  cases r with
  | ok a =>
      rcases hb calls a (by rw [h]) with ⟨b, rfl⟩
      exact ⟨b, rfl⟩
  | error e => exact ⟨Artifact.ErrorArtifact e.message, rfl⟩

/-- C4 counterexample: invoking `get_album` with a parameter mapping that has
no `"values"` entry raises `AttributeError` out of the call (the extraction
`vals.get("id")` runs on `None` before the `try` block), refuting the claim
that missing required keys never raise. -/
theorem getAlbum_missing_values_raises_eval :
    SpotifyClient.get_album (constClient PyVal.none) (PyVal.dict []) []
      = (.error (.attributeError "NoneType object has no attribute get"), []) := rfl

/-- C4 (amended): a parameter mapping whose `"values"` entry is a dictionary,
however incomplete, never raises during parameter extraction (missing keys
become `None` or the documented default), and the invocation then returns an
artifact for every client behaviour for the ordinary operations (whose `try`
catches any `Exception`); `get_new_releases` returns either an error artifact
or Python `None`; the two elevated-permission operations return an artifact
provided the remote call raises only `SpotifyException` (and, for
`create_playlist`, the `me()` response carries an `"id"`), since their `try`
catches only `SpotifyException`.  A mapping with no `"values"` entry at all
raises `AttributeError` out of the call. -/
theorem missing_parameter_outcome_policy :
    (∀ (vs : List (String × PyVal)) (client : Client),
      (∃ a, (SpotifyClient.get_album client (mkParams vs) []).1 = .ok (some a))
      ∧ (∃ a, (SpotifyClient.get_albums client (mkParams vs) []).1 = .ok (some a))
      ∧ (∃ a, (SpotifyClient.get_album_tracks client (mkParams vs) []).1 = .ok (some a))
      ∧ (∃ a, (SpotifyClient.get_tracks client (mkParams vs) []).1 = .ok (some a))
      ∧ (∃ a, (SpotifyClient.check_current_user_saved_albums client
          (mkParams vs) []).1 = .ok (some a))
      ∧ (∃ a, (SpotifyClient.search client (mkParams vs) []).1 = .ok (some a))
      ∧ (∃ a, (SpotifyClient.get_audio_features client (mkParams vs) []).1 = .ok (some a))
      ∧ (∃ r, (SpotifyClient.get_new_releases client (mkParams vs) []).1 = .ok r
          ∧ (r = Option.none ∨ ∃ m, r = some (Artifact.ErrorArtifact m))))
    ∧ (∀ (ar : String) (client : Client), SpotifyOnlyClient client →
        ∃ a, (SpotifyClient.add_items_to_playlist ar client (mkParams []) []).1
          = .ok (some a))
    ∧ (∀ (ar : String) (client : Client), SpotifyOnlyClient client → MeHasId client →
        ∃ a, (SpotifyClient.create_playlist ar client (mkParams []) []).1
          = .ok (some a))
    ∧ (∀ client : Client,
        (SpotifyClient.get_album client (PyVal.dict []) []).1
          = .error (.attributeError "NoneType object has no attribute get")) := by
  refine ⟨fun vs client => ?_, fun ar client hso => ?_, fun ar client hso hme => ?_,
    fun client => rfl⟩
  · refine ⟨?_, ?_, ?_, ?_, ?_, ?_, ?_, ?_⟩
    · simp only [SpotifyClient.get_album, OpM.bind_eq, OpM.pure_eq, OpM.bind_lift,
        mkParams, PyVal.get]
      exact tryExcept_catchAll_total (alwaysSome_bind fun _ => alwaysSome_pure_some _) []
    · simp only [SpotifyClient.get_albums, OpM.bind_eq, OpM.pure_eq, OpM.bind_lift,
        mkParams, PyVal.get]
      exact tryExcept_catchAll_total
        (alwaysSome_bind fun _ => alwaysSome_bind fun _ => alwaysSome_pure_some _) []
    · simp only [SpotifyClient.get_album_tracks, OpM.bind_eq, OpM.pure_eq, OpM.bind_lift,
        mkParams, PyVal.get]
      exact tryExcept_catchAll_total
        (alwaysSome_bind fun _ => alwaysSome_bind fun _ => alwaysSome_pure_some _) []
    · simp only [SpotifyClient.get_tracks, OpM.bind_eq, OpM.pure_eq, OpM.bind_lift,
        mkParams, PyVal.get]
      exact tryExcept_catchAll_total
        (alwaysSome_bind fun _ => alwaysSome_bind fun _ => alwaysSome_pure_some _) []
    · simp only [SpotifyClient.check_current_user_saved_albums, OpM.bind_eq, OpM.pure_eq,
        OpM.bind_lift, mkParams, PyVal.get]
      exact tryExcept_catchAll_total
        (alwaysSome_bind fun _ => alwaysSome_bind fun _ => alwaysSome_bind fun _ =>
          alwaysSome_pure_some _) []
    · simp only [SpotifyClient.search, OpM.bind_eq, OpM.pure_eq, OpM.bind_lift,
        mkParams, PyVal.get]
      exact tryExcept_catchAll_total
        (alwaysSome_bind fun _ => alwaysSome_bind fun _ => alwaysSome_bind fun _ =>
          alwaysSome_bind fun _ => alwaysSome_bind fun _ => alwaysSome_pure_some _) []
    · simp only [SpotifyClient.get_audio_features, OpM.bind_eq, OpM.pure_eq, OpM.bind_lift,
        mkParams, PyVal.get]
      exact tryExcept_catchAll_total
        (alwaysSome_bind fun _ => alwaysSome_bind fun _ => alwaysSome_pure_some _) []
    · simp only [SpotifyClient.get_new_releases, OpM.bind_eq, OpM.pure_eq, OpM.bind_lift,
        tryExcept_callClient, tryExcept_lift, tryExcept_pure, mkParams, PyVal.get,
        PyExn.isException, if_true, OpM.pure]
      simp
      repeat' split
      all_goals first
        | exact ⟨_, rfl, Or.inl rfl⟩
        | exact ⟨_, rfl, Or.inr ⟨_, rfl⟩⟩
  · simp only [SpotifyClient.add_items_to_playlist, OpM.bind_eq, OpM.pure_eq,
      OpM.bind_lift, tryExcept_callClient, tryExcept_lift, tryExcept_pure,
      mkParams, PyVal.get, OpM.pure]
    simp
    rcases hso (ClientCall.playlist_add_items PyVal.none PyVal.none (PyVal.int 0)) with
      ⟨v, hv⟩ | ⟨s, m, hsm⟩
    · rw [hv]
      exact ⟨_, rfl⟩
    · rw [hsm]
      simp [PyExn.isSpotify, PyExn.http_status]
      split
      · exact ⟨_, rfl⟩
      · exact ⟨_, rfl⟩
  · simp only [SpotifyClient.create_playlist, OpM.bind_eq, OpM.pure_eq,
      OpM.bind_lift, tryExcept_callClient, tryExcept_lift, tryExcept_pure,
      mkParams, PyVal.get, OpM.pure]
    simp
    rcases hso ClientCall.me with ⟨v, hv⟩ | ⟨s, m, hsm⟩
    · rw [hv]
      dsimp only
      rcases hme v hv with ⟨w, hw⟩
      rw [hw]
      dsimp only
      rcases hso (ClientCall.user_playlist_create w PyVal.none (PyVal.bool true)
          (PyVal.bool false) (PyVal.str "")) with ⟨v2, hv2⟩ | ⟨s2, m2, hsm2⟩
      · rw [hv2]
        exact ⟨_, rfl⟩
      · rw [hsm2]
        simp [PyExn.isSpotify, PyExn.http_status]
        split
        · exact ⟨_, rfl⟩
        · exact ⟨_, rfl⟩
    · rw [hsm]
      simp [PyExn.isSpotify, PyExn.http_status]
      split
      · exact ⟨_, rfl⟩
      · exact ⟨_, rfl⟩

/-- Witness for C4 (amended) at concrete inputs: a client raising a 429
`SpotifyException` on every call satisfies `SpotifyOnlyClient`, and a constant
client whose `me()` response is `a dict with an "id"` satisfies both
hypotheses of the `create_playlist` clause. -/
theorem missing_parameter_outcome_policy_witness :
    (∃ a, (SpotifyClient.add_items_to_playlist "AUTH"
      (raiseClient (PyExn.spotifyException 429 "rate limit")) (mkParams []) []).1
        = .ok (some a))
    ∧ (∃ a, (SpotifyClient.create_playlist "AUTH"
      (constClient (PyVal.dict [("id", PyVal.str "user1")])) (mkParams []) []).1
        = .ok (some a)) :=
  ⟨missing_parameter_outcome_policy.2.1 "AUTH"
      (raiseClient (PyExn.spotifyException 429 "rate limit"))
      (fun _ => Or.inr ⟨429, "rate limit", rfl⟩),
   missing_parameter_outcome_policy.2.2.1 "AUTH"
      (constClient (PyVal.dict [("id", PyVal.str "user1")]))
      (fun _ => Or.inl ⟨PyVal.dict [("id", PyVal.str "user1")], rfl⟩)
      (fun v hv => by
        injection hv with hv
        exact ⟨PyVal.str "user1", by subst hv; rfl⟩)⟩

/-- The trace of a `try` block that opens with the outbound call and performs
none afterwards: exactly the one recorded call, on every path. -/
theorem trace_of_tryExcept_callClient {β : Type} (client : Client) (c : ClientCall)
    (post : PyVal → OpM β) (catches : PyExn → Bool) (handler : PyExn → OpM β)
    (calls : List ClientCall) (hpost : ∀ v, NoCalls (post v))
    (hh : ∀ e, NoCalls (handler e)) :
    (tryExcept (OpM.bind (callClient client c) post) catches handler calls).2
      = calls ++ [c] := by
  rw [tryExcept_callClient]
  cases hc : client c with
  | ok v =>
      dsimp only
      exact noCalls_tryExcept (hpost v) hh (calls ++ [c])
  | error e =>
      dsimp only
      split
      · exact hh _ _
      · rfl

/-- C5 counterexample: one invocation of `create_playlist` with a successful
remote service performs TWO outbound calls, `me()` and then
`user_playlist_create(...)`, refuting the exactly-one-call claim. -/
theorem createPlaylist_two_outbound_calls_eval :
    ((SpotifyClient.create_playlist "AUTH"
        (constClient (PyVal.dict [("id", PyVal.str "user1")]))
        (mkParams [("name", PyVal.str "My Playlist")]) []).2
      = [ClientCall.me,
         ClientCall.user_playlist_create (PyVal.str "user1") (PyVal.str "My Playlist")
           (PyVal.bool true) (PyVal.bool false) (PyVal.str "")])
    ∧ ((SpotifyClient.create_playlist "AUTH"
        (constClient (PyVal.dict [("id", PyVal.str "user1")]))
        (mkParams [("name", PyVal.str "My Playlist")]) []).2.length = 2) :=
  ⟨rfl, rfl⟩


/-- C5 (amended): every embedded operation other than `create_playlist` and
`search` performs exactly one outbound call per invocation on a well-formed
parameter mapping, whatever the client does (no retries, no extra calls);
`search` performs exactly one when its pre-call steps (query encoding, type
joining) succeed, and none when a pre-call step raises; `create_playlist`
records either the single `me()` call (when it fails or its response lacks
`"id"`) or exactly the two calls `me()` then `user_playlist_create(...)`. -/
theorem outbound_call_count_policy :
    (∀ (vs : List (String × PyVal)) (client : Client) (ar : String),
      ((SpotifyClient.get_album client (mkParams vs) []).2.length = 1)
      ∧ ((SpotifyClient.get_albums client (mkParams vs) []).2.length = 1)
      ∧ ((SpotifyClient.get_album_tracks client (mkParams vs) []).2.length = 1)
      ∧ ((SpotifyClient.get_tracks client (mkParams vs) []).2.length = 1)
      ∧ ((SpotifyClient.get_new_releases client (mkParams vs) []).2.length = 1)
      ∧ ((SpotifyClient.check_current_user_saved_albums client (mkParams vs) []).2.length = 1)
      ∧ ((SpotifyClient.get_audio_features client (mkParams vs) []).2.length = 1)
      ∧ ((SpotifyClient.add_items_to_playlist ar client (mkParams vs) []).2.length = 1))
    ∧ (∀ (q t : String) (client : Client),
        (SpotifyClient.search client
          (mkParams [("q", PyVal.str q), ("type", PyVal.list [PyVal.str t])]) []).2.length
          = 1)
    ∧ (∀ (vs : List (String × PyVal)) (client : Client),
        (SpotifyClient.search client (mkParams vs) []).2.length ≤ 1)
    ∧ (∀ (vs : List (String × PyVal)) (client : Client) (ar : String),
        ((SpotifyClient.create_playlist ar client (mkParams vs) []).2
            = [ClientCall.me])
        ∨ (∃ u n p co d, (SpotifyClient.create_playlist ar client (mkParams vs) []).2
            = [ClientCall.me, ClientCall.user_playlist_create u n p co d])) := by
  refine ⟨fun vs client ar => ?_, fun q t client => ?_, fun vs client => ?_,
    fun vs client ar => ?_⟩
  · refine ⟨?_, ?_, ?_, ?_, ?_, ?_, ?_, ?_⟩
    · simp only [SpotifyClient.get_album, OpM.bind_eq, OpM.pure_eq, OpM.bind_lift,
        mkParams, PyVal.get]
      simp only [List.find?_cons_of_pos, beq_self_eq_true]
      rw [trace_of_tryExcept_callClient]
      · simp
      · intro v; exact noCalls_pure _
      · intro e; exact noCalls_pure _
    · simp only [SpotifyClient.get_albums, OpM.bind_eq, OpM.pure_eq, OpM.bind_lift,
        mkParams, PyVal.get]
      simp only [List.find?_cons_of_pos, beq_self_eq_true]
      rw [trace_of_tryExcept_callClient]
      · simp
      · intro v; exact noCalls_bind (noCalls_lift _) fun _ => noCalls_pure _
      · intro e; exact noCalls_pure _
    · simp only [SpotifyClient.get_album_tracks, OpM.bind_eq, OpM.pure_eq, OpM.bind_lift,
        mkParams, PyVal.get]
      simp only [List.find?_cons_of_pos, beq_self_eq_true]
      rw [trace_of_tryExcept_callClient]
      · simp
      · intro v; exact noCalls_bind (noCalls_lift _) fun _ => noCalls_pure _
      · intro e; exact noCalls_pure _
    · simp only [SpotifyClient.get_tracks, OpM.bind_eq, OpM.pure_eq, OpM.bind_lift,
        mkParams, PyVal.get]
      simp only [List.find?_cons_of_pos, beq_self_eq_true]
      rw [trace_of_tryExcept_callClient]
      · simp
      · intro v; exact noCalls_bind (noCalls_lift _) fun _ => noCalls_pure _
      · intro e; exact noCalls_pure _
    · simp only [SpotifyClient.get_new_releases, OpM.bind_eq, OpM.pure_eq, OpM.bind_lift,
        mkParams, PyVal.get]
      simp only [List.find?_cons_of_pos, beq_self_eq_true]
      rw [trace_of_tryExcept_callClient]
      · simp
      · intro v; exact noCalls_bind (noCalls_lift _) fun _ => noCalls_pure _
      · intro e; exact noCalls_pure _
    · simp only [SpotifyClient.check_current_user_saved_albums, OpM.bind_eq, OpM.pure_eq,
        OpM.bind_lift, mkParams, PyVal.get]
      simp only [List.find?_cons_of_pos, beq_self_eq_true]
      rw [trace_of_tryExcept_callClient]
      · simp
      · intro v
        exact noCalls_bind (noCalls_lift _) fun idList =>
          noCalls_bind (noCalls_forCollect (fun id =>
              noCalls_bind (noCalls_lift _) fun i =>
                noCalls_bind (noCalls_lift _) fun b => noCalls_pure _) _)
            fun texts => noCalls_pure _
      · intro e; exact noCalls_pure _
    · simp only [SpotifyClient.get_audio_features, OpM.bind_eq, OpM.pure_eq, OpM.bind_lift,
        mkParams, PyVal.get]
      simp only [List.find?_cons_of_pos, beq_self_eq_true]
      rw [trace_of_tryExcept_callClient]
      · simp
      · intro v; exact noCalls_bind (noCalls_lift _) fun _ => noCalls_pure _
      · intro e; exact noCalls_pure _
    · simp only [SpotifyClient.add_items_to_playlist, OpM.bind_eq, OpM.pure_eq,
        OpM.bind_lift, mkParams, PyVal.get]
      simp only [List.find?_cons_of_pos, beq_self_eq_true]
      rw [trace_of_tryExcept_callClient]
      · simp
      · intro v; exact noCalls_pure _
      · intro e calls
        split <;> rfl
  · simp only [SpotifyClient.search, OpM.bind_eq, OpM.pure_eq, OpM.bind_lift,
      mkParams, PyVal.get]
    simp only [List.find?_cons_of_pos, beq_self_eq_true]
    simp
    simp only [tryExcept_lift]
    have hq : urlEncode (PyVal.str q)
        = .ok (String.join (q.toList.map percentEncodeChar)) := rfl
    have ht : joinComma (PyVal.list [PyVal.str t])
        = .ok (String.intercalate "," [t]) := rfl
    rw [hq, ht]
    rw [trace_of_tryExcept_callClient]
    · simp
    · intro v
      exact noCalls_bind (noCalls_lift _) fun ks =>
        noCalls_bind (noCalls_forCollect (fun key =>
            noCalls_bind (noCalls_lift _) fun items => noCalls_pure _) _)
          fun groups => noCalls_pure _
    · intro e; exact noCalls_pure _
  · simp only [SpotifyClient.search, OpM.bind_eq, OpM.pure_eq, OpM.bind_lift,
      mkParams, PyVal.get]
    simp only [List.find?_cons_of_pos, beq_self_eq_true]
    simp only [tryExcept_lift, PyExn.isException, if_true]
    repeat' split
    all_goals try (simp [OpM.pure, PyExn.isException]; done)
    all_goals rw [trace_of_tryExcept_callClient]
    all_goals first
      | (intro x
         first
           | exact noCalls_pure _
           | exact noCalls_bind (noCalls_lift _) fun ks =>
               noCalls_bind (noCalls_forCollect (fun key =>
                   noCalls_bind (noCalls_lift _) fun items => noCalls_pure _) _)
                 fun groups => noCalls_pure _)
      | simp
  · simp only [SpotifyClient.create_playlist, OpM.bind_eq, OpM.pure_eq, OpM.bind_lift,
      tryExcept_callClient, tryExcept_lift, tryExcept_pure, mkParams, PyVal.get,
      OpM.pure]
    simp only [List.find?_cons_of_pos, beq_self_eq_true]
    repeat' split
    all_goals first
      | exact Or.inl rfl
      | exact Or.inr ⟨_, _, _, _, _, rfl⟩

/-- A `try` block whose body starts with a computation of known outcome that
performs no calls. -/
theorem tryExcept_bind_run {α β : Type} {x : OpM α} {r : Except PyExn α}
    (hx : ∀ calls, x calls = (r, calls)) (f : α → OpM β) (catches : PyExn → Bool)
    (handler : PyExn → OpM β) (calls : List ClientCall) :
    tryExcept (OpM.bind x f) catches handler calls =
      match r with
      | .ok a => tryExcept (f a) catches handler calls
      | .error e => if catches e then handler e calls else (.error e, calls) := by
  unfold tryExcept OpM.bind
  rw [hx calls]
  cases r <;> rfl

/-- Runs the loop body of `check_current_user_saved_albums` over the id list
`l` (with `full` the list handed to `ids.index` and `bs` the response of the
contains call): when every looked-up first-occurrence index is within the
response, the loop produces, in order, one text per id, each reporting the
boolean at the index of the id's FIRST occurrence in `full`. -/
theorem forCollect_index_run (full bs : List PyVal) :
    ∀ l : List PyVal, (∀ id ∈ l, id ∈ full) →
      (∀ id ∈ l, firstIdx full id < bs.length) →
      ∀ calls : List ClientCall,
      forCollect (fun id =>
          OpM.bind (OpM.lift (pyListIndex full id)) fun i =>
            OpM.bind (OpM.lift (PyVal.getIdx (PyVal.list bs) i)) fun b =>
              OpM.pure ("Album with id: " ++ pyStr id ++ " is saved: " ++ pyStr b)) l calls
        = (.ok (l.map (fun id =>
            "Album with id: " ++ pyStr id ++ " is saved: "
              ++ pyStr (bs.getD (firstIdx full id) PyVal.none))), calls) := by
  intro l
  induction l with
  | nil => intro _ _ calls; rfl
  | cons id rest ih =>
      intro hmem hlt calls
      have h1 : pyListIndex full id = .ok (firstIdx full id) :=
        pyListIndex_eq_firstIdx (hmem id (List.mem_cons_self id rest))
      have h2 : PyVal.getIdx (PyVal.list bs) (firstIdx full id)
          = .ok (bs.getD (firstIdx full id) PyVal.none) :=
        getIdx_list_lt (hlt id (List.mem_cons_self id rest))
      have hrest := ih (fun i hi => hmem i (List.mem_cons_of_mem id hi))
        (fun i hi => hlt i (List.mem_cons_of_mem id hi)) calls
      simp only [forCollect, OpM.bind, OpM.lift, OpM.pure, h1, h2, hrest]
      simp

/-- C9: in `check_current_user_saved_albums`, the i-th element of the Success
Result pairs `ids[i]` with `result[ids.index(ids[i])]` rather than
`result[i]`: the produced texts report, for each id, the boolean at the index
of the id's FIRST occurrence in `ids` (`firstIdx`); when `ids` has no
duplicates this first-occurrence index coincides with the position, so the
pairing is positional; when an id is duplicated, every occurrence reports the
boolean at the index of its first occurrence (which is at most the position of
any earlier equal element). -/
theorem checkSavedAlbums_pairing_first_occurrence :
    ∀ (ids bs : List PyVal),
      (∀ id ∈ ids, firstIdx ids id < bs.length) →
      (((SpotifyClient.check_current_user_saved_albums (constClient (PyVal.list bs))
          (mkParams [("ids", PyVal.list ids)]) []).1
        = .ok (some (Artifact.ListArtifact (ids.map (fun id =>
            "Album with id: " ++ pyStr id ++ " is saved: "
              ++ pyStr (bs.getD (firstIdx ids id) PyVal.none)))))))
      ∧ (List.Pairwise (fun a b => PyVal.beq a b = false) ids →
          ∀ (j : Nat) (hj : j < ids.length), firstIdx ids (ids.get ⟨j, hj⟩) = j)
      ∧ (∀ (j k : Nat) (hk : k < ids.length) (hjk : j < k),
          PyVal.beq (ids.get ⟨j, Nat.lt_trans hjk hk⟩) (ids.get ⟨k, hk⟩) = true →
          firstIdx ids (ids.get ⟨k, hk⟩) ≤ j) := by
  intro ids bs hlt
  refine ⟨?_, fun hdist j hj => firstIdx_positional hdist j hj, fun j k hk hjk hbeq => ?_⟩
  · simp only [SpotifyClient.check_current_user_saved_albums, OpM.bind_eq, OpM.pure_eq,
      OpM.bind_lift, tryExcept_callClient, tryExcept_lift, tryExcept_pure, mkParams,
      PyVal.get, constClient, OpM.pure]
    simp only [List.find?_cons_of_pos, beq_self_eq_true]
    simp only [show PyVal.asList (PyVal.list ids) = Except.ok ids from rfl]
    rw [tryExcept_bind_run (forCollect_index_run ids bs ids (fun id h => h) hlt)]
    rfl
  · have hj : j < ids.length := Nat.lt_trans hjk hk
    have hstep := findIdx_le_of_pred (fun x => PyVal.beq x (ids.get ⟨k, hk⟩)) ids j hj
      (by simpa [List.get_eq_getElem] using hbeq)
    simpa [firstIdx] using hstep

/-- Witness for C9 at a concrete input with a duplicated id: for
`ids = [a, b, a]` and `result = [True, False, False]`, the in-range
hypothesis holds, the third element reports the boolean at index 0 (the first
occurrence of `a`), and the duplicate-occurrence bound instantiates at
positions 0 < 2. -/
theorem checkSavedAlbums_pairing_first_occurrence_witness :
    ((SpotifyClient.check_current_user_saved_albums
        (constClient (PyVal.list [PyVal.bool true, PyVal.bool false, PyVal.bool false]))
        (mkParams [("ids", PyVal.list [PyVal.str "a", PyVal.str "b", PyVal.str "a"])]) []).1
      = .ok (some (Artifact.ListArtifact
          ([PyVal.str "a", PyVal.str "b", PyVal.str "a"].map (fun id =>
            "Album with id: " ++ pyStr id ++ " is saved: "
              ++ pyStr ([PyVal.bool true, PyVal.bool false, PyVal.bool false].getD
                  (firstIdx [PyVal.str "a", PyVal.str "b", PyVal.str "a"] id)
                  PyVal.none))))))
    ∧ firstIdx [PyVal.str "a", PyVal.str "b", PyVal.str "a"] (PyVal.str "a") = 0 :=
  ⟨(checkSavedAlbums_pairing_first_occurrence
      [PyVal.str "a", PyVal.str "b", PyVal.str "a"]
      [PyVal.bool true, PyVal.bool false, PyVal.bool false]
      (by decide)).1,
   by decide⟩
